import Mathlib

/-!
# Shallow embedding of the AgenticCloudServiceValidator validation pipeline

This file embeds, as executable Lean definitions, the parts of the
repository that the verified properties talk about:

* `src/agents/data_fetcher_agent.py`   — `DataFetcherAgent._fetch_from_service`,
  `_structure_data_with_ai`, `_create_error_snapshot`, `_count_records`;
* `src/agents/verification_agent.py`   — `CrossVerificationAgent._verify_rule`,
  `_ai_cross_verify` / `_ai_single_verify` (their shared response handling);
* `src/agents/anomaly_agent.py`        — `AnomalyDetectionAgent._generate_report`,
  `_generate_recommendations`;
* `src/agents/alert_agent.py`          — `AlertAgent.process_alerts`,
  `_should_trigger_alert`, `_send_alerts`;
* `src/src/auth/handler.py`            — `AuthHandler._handle_oauth2`;
* `src/src/orchestrator.py`            — `ValidationOrchestrator.run_validation`,
  `ValidationOrchestrationService.cancel_validation`.

External effects (HTTP requests, the inference capability, clocks) are passed
in explicitly as values of `Except`/oracle parameters, so every embedded
operation is a total computable function; Python exceptions escaping a
`try` block are represented by `Except.error` values of the surrounding
oracle, and exceptions caught by the source are mirrored by the same
branching the source performs.  Python dictionaries are association lists,
JSON values are the inductive `Json` below, and timestamps are integers
(seconds); `datetime` subtraction maps to integer subtraction.
-/

namespace CloudValidator

/-- JSON-like values, the payloads that `json.loads` / `response.json()`
produce and that flow between the agents.  Numbers are modelled as
integers (no claim depends on float arithmetic). -/
inductive Json where
  | null : Json
  | bool : Bool → Json
  | num : Int → Json
  | str : String → Json
  | arr : List Json → Json
  | obj : List (String × Json) → Json
deriving Repr

/-- First-match lookup in an association list, the embedding of Python
`dict[key]` / `dict.get(key)` (Python dict keys are unique, so
first-match agrees with the dict). -/
def alistLookup {α : Type} (k : String) : List (String × α) → Option α
  | [] => none
  | (k', v) :: rest => if k' = k then some v else alistLookup k rest

/-- Python truthiness of an optional string (`if x:` where
`x : Optional[str]`): `None` and the empty string are falsy. -/
def pyTruthyStrOpt : Option String → Bool
  | none => false
  | some s => s ≠ ""

/-- Substring test, the embedding of Python's `pat in s` for strings. -/
def strContains (s pat : String) : Bool :=
  decide (pat.toList <:+: s.toList)

/-! ## Anomalies and the anomaly report (`src/agents/anomaly_agent.py`) -/

/-- `AnomalySeverity` from `src/src/models.py`. -/
inductive AnomalySeverity where
  | low | medium | high | critical
deriving DecidableEq, Repr

/-- `Anomaly` from `src/src/models.py` (fields the pipeline reads; the
UUID fields are modelled as `Nat`). -/
structure Anomaly where
  validation_id : Nat
  rule_id : String
  severity : AnomalySeverity
  service_id : String
  anomaly_type : String
  description : String
  affected_records : Nat
  deviation_percentage : Option Int := none
  expected_value : Option Json := none
  actual_value : Option Json := none
deriving Repr

/-- `AnomalyReport` from `src/src/models.py`. -/
structure AnomalyReport where
  validation_id : Nat
  total_anomalies : Nat
  critical_count : Nat
  high_count : Nat
  medium_count : Nat
  low_count : Nat
  anomalies : List Anomaly
  recommendations : List String
  alert_triggered : Bool
  alert_sent_at : Option Int
deriving Repr

/-- The `severity_counts` dictionary built by
`AnomalyDetectionAgent._generate_report`. -/
structure SeverityCounts where
  critical : Nat
  high : Nat
  medium : Nat
  low : Nat
deriving DecidableEq, Repr

/-- One loop iteration of `_generate_report`:
`severity_counts[anomaly.severity.value] += 1`. -/
def bumpSeverity (c : SeverityCounts) : AnomalySeverity → SeverityCounts
  | .critical => { c with critical := c.critical + 1 }
  | .high => { c with high := c.high + 1 }
  | .medium => { c with medium := c.medium + 1 }
  | .low => { c with low := c.low + 1 }

/-- The `for anomaly in anomalies` counting loop of `_generate_report`,
starting from the all-zero dictionary. -/
def severityCounts (anomalies : List Anomaly) : SeverityCounts :=
  anomalies.foldl (fun c a => bumpSeverity c a.severity) ⟨0, 0, 0, 0⟩

/-- `AnomalyDetectionAgent._generate_recommendations`.  The inference
round-trip (prompt, `agent.run`, code-fence stripping, `json.loads`) is
abstracted into the oracle `ai`: `.ok recs` is a successfully parsed
recommendation list, `.error` any exception inside the `try`. -/
def generateRecommendations (anomalies : List Anomaly)
    (ai : Except String (List String)) : List String :=
  if anomalies.isEmpty then
    ["No anomalies detected. All services are operating normally."]
  else
    match ai with
    | .ok recs => recs
    | .error _ =>
        ["Investigate " ++ toString anomalies.length ++ " detected anomalies",
         "Review service logs for error patterns",
         "Check network connectivity between services",
         "Verify authentication credentials are valid",
         "Consider implementing data reconciliation jobs"]

/-- `AnomalyDetectionAgent._generate_report`.  `now` is the value of
`datetime.utcnow()` at report construction; `recAi` is the
recommendation-generation oracle.  Note that the function receives no
`AlertConfig`: the alert-trigger decision is computed from the fixed
constants in the source alone. -/
def generateReport (validationId : Nat) (anomalies : List Anomaly)
    (recAi : Except String (List String)) (now : Int) : AnomalyReport :=
  let counts := severityCounts anomalies
  let recommendations := generateRecommendations anomalies recAi
  let alertTriggered :=
    counts.critical > 0 || counts.high ≥ 3 || anomalies.length ≥ 5
  { validation_id := validationId
    total_anomalies := anomalies.length
    critical_count := counts.critical
    high_count := counts.high
    medium_count := counts.medium
    low_count := counts.low
    anomalies := anomalies
    recommendations := recommendations
    alert_triggered := alertTriggered
    alert_sent_at := if alertTriggered then some now else none }

/-! ## Alert dispatch (`src/agents/alert_agent.py`) -/

/-- `AlertConfig` from `src/src/models.py` (the fields `AlertAgent`
reads).  URLs are strings; `slack_webhook` / `webhook_url` are
`Optional[HttpUrl]`, truthy exactly when present (a pydantic `HttpUrl`
is never the empty string). -/
structure AlertConfig where
  enabled : Bool
  anomaly_count_threshold : Nat
  critical_severity_threshold : Nat
  high_severity_threshold : Nat
  email_enabled : Bool
  email_recipients : List String
  slack_enabled : Bool
  slack_webhook : Option String
  webhook_enabled : Bool
  webhook_url : Option String
deriving Repr

/-- `AlertAgent._should_trigger_alert`: with no config, defer to the
report's own flag; otherwise OR the three configured thresholds. -/
def shouldTriggerAlert (cfg : Option AlertConfig) (report : AnomalyReport) : Bool :=
  match cfg with
  | none => report.alert_triggered
  | some c =>
      report.critical_count ≥ c.critical_severity_threshold
      || report.high_count ≥ c.high_severity_threshold
      || report.total_anomalies ≥ c.anomaly_count_threshold

/-- The guard in `AlertAgent.process_alerts` deciding whether channel
dispatch is attempted: `if not should_alert or not self.alert_config or
not self.alert_config.enabled: return` (with `alerts_sent=False`);
dispatch happens exactly when this is `true`. -/
def dispatchAttempted (cfg : Option AlertConfig) (report : AnomalyReport) : Bool :=
  shouldTriggerAlert cfg report
    && (match cfg with
        | none => false
        | some c => c.enabled)

/-- `AlertAgent._send_alerts`.  The three channel sends are abstracted
by the values `emailRes`, `slackRes`, `webhookRes` of an arbitrary
result type `α` (each sender catches its own exceptions and returns a
per-channel dict; `asyncio.gather` returns them in task order).  The
returned association list is the `results` dict in insertion order; a
`none` value is a Python `None` entry. -/
def sendAlerts {α : Type} (cfg : AlertConfig)
    (emailRes slackRes webhookRes : α) : List (String × Option α) :=
  let tasks : List α :=
    (if cfg.email_enabled && !cfg.email_recipients.isEmpty then [emailRes] else [])
    ++ (if cfg.slack_enabled && cfg.slack_webhook.isSome then [slackRes] else [])
    ++ (if cfg.webhook_enabled && cfg.webhook_url.isSome then [webhookRes] else [])
  if tasks.isEmpty then []
  else
    ("email", if cfg.email_enabled then tasks[0]? else none)
    :: ((if tasks.length > 1 then
          [("slack", if cfg.slack_enabled then tasks[1]? else none)]
         else [])
        ++ (if tasks.length > 2 then
              [("webhook", if cfg.webhook_enabled then tasks[2]? else none)]
            else []))

/-! ## Rule verification (`src/agents/verification_agent.py`) -/

/-- `DataSnapshot` from `src/src/models.py`.  `data` is the structured
payload; `fetch_duration_ms` is modelled as an integer. -/
structure DataSnapshot where
  service_id : String
  fetched_at : Int
  data : Json
  record_count : Nat
  fetch_duration_ms : Int
  success : Bool
  error_message : Option String := none
deriving Repr

/-- `ValidationRule` from `src/src/models.py` (the fields
`CrossVerificationAgent` reads). -/
structure ValidationRule where
  rule_id : String
  rule_name : String
  description : String
  source_service : String
  target_service : Option String := none
  validation_query : Option String := none
  expected_fields : List String := []
  comparison_logic : Option String := none
deriving Repr

/-- `VerificationResult` from `src/agents/verification_agent.py` — a
plain Python class, so `passed` and `message` hold whatever value the
parsed inference response supplied (`Json.bool`/`Json.str` in the
deterministic branches). -/
structure VerificationResult where
  rule_id : String
  passed : Json
  message : Json
  details : Json
deriving Repr

/-- `next((s for s in snapshots if s.service_id == sid), None)`. -/
def findSnapshot (sid : String) (snaps : List DataSnapshot) : Option DataSnapshot :=
  snaps.find? (fun s => s.service_id = sid)

/-- The availability test of `_verify_rule`:
`not (not snapshot or not snapshot.success)`. -/
def snapshotAvailable (sid : String) (snaps : List DataSnapshot) : Bool :=
  match findSnapshot sid snaps with
  | none => false
  | some s => s.success

/-- The Python type name of a `Json` value, as it appears in the
`AttributeError` raised by `value.get(...)` on a non-dict. -/
def pyTypeName : Json → String
  | .null => "NoneType"
  | .bool _ => "bool"
  | .num _ => "int"
  | .str _ => "str"
  | .arr _ => "list"
  | .obj _ => "dict"

/-- The shared response handling of `_ai_cross_verify` and
`_ai_single_verify`.  The oracle `ai` abstracts `agent.run`, the
code-fence stripping and `json.loads`: `.ok j` is the parsed response
value, `.error e` any exception up to and including the parse (the
caught exception's text).  A parsed non-dict value makes
`result_data.get(...)` raise `AttributeError`, caught by the same
`except` clause. -/
def aiVerifyOutcome (ruleId : String) (ai : Except String Json) : VerificationResult :=
  match ai with
  | .error e =>
      { rule_id := ruleId, passed := .bool false,
        message := .str ("AI verification failed: " ++ e), details := .obj [] }
  | .ok (.obj kvs) =>
      { rule_id := ruleId
        passed := (alistLookup "passed" kvs).getD (.bool false)
        message := (alistLookup "message" kvs).getD (.str "Verification completed")
        details := .obj kvs }
  | .ok j =>
      { rule_id := ruleId, passed := .bool false,
        message := .str ("AI verification failed: '" ++ pyTypeName j
          ++ "' object has no attribute " ++ "'get'")
        details := .obj [] }

/-- A failed `VerificationResult` built in the deterministic branches
of `_verify_rule` (`details=None` becomes `{}`). -/
def failedOutcome (ruleId msg : String) : VerificationResult :=
  { rule_id := ruleId, passed := .bool false, message := .str msg, details := .obj [] }

/-- `CrossVerificationAgent._verify_rule`.  Returns the outcome paired
with a flag recording whether the inference capability was invoked for
this rule (`true` exactly on the paths that call `_ai_cross_verify` or
`_ai_single_verify`).  Note the target branch is taken under Python
truthiness of `rule.target_service`: a `Some ""` target is treated as
unset. -/
def verifyRule (rule : ValidationRule) (snaps : List DataSnapshot)
    (ai : Except String Json) : VerificationResult × Bool :=
  if snapshotAvailable rule.source_service snaps = false then
    (failedOutcome rule.rule_id
      ("Source service '" ++ rule.source_service ++ "' data not available"), false)
  else if pyTruthyStrOpt rule.target_service then
    let tgt := rule.target_service.getD ""
    if snapshotAvailable tgt snaps = false then
      (failedOutcome rule.rule_id
        ("Target service '" ++ tgt ++ "' data not available"), false)
    else
      (aiVerifyOutcome rule.rule_id ai, true)
  else
    (aiVerifyOutcome rule.rule_id ai, true)

/-! ## Data fetching (`src/agents/data_fetcher_agent.py`) -/

/-- `DependentService` from `src/src/models.py` (the fields
`DataFetcherAgent` reads). -/
structure DependentService where
  service_id : String
  service_name : String
  service_type : String
  endpoint : String
  health_check_path : Option String := some "/health"
  timeout_seconds : Nat := 30
deriving Repr

/-- An HTTP response as `_fetch_from_service` inspects it:
status code, the `content-type` header (defaulting to `""`), the body
text, and the result of `response.json()` (`none` when the body is not
valid JSON, in which case `.json()` raises). -/
structure HttpResponse where
  status : Nat
  contentType : String
  textBody : String
  jsonBody : Option Json
deriving Repr

/-- The external effects of one `_fetch_from_service` call.  Each field
is the outcome the corresponding call site observes; `.error e` is an
exception with text `e`.

* `authResult` — `authenticator.get_authenticated_headers` (an
  `AuthenticationError` or any other exception is `.error`);
* `healthResult` — the health-check `GET` (consulted only when
  `service.health_check_path` is truthy): transport exception or a
  status code;
* `fetchResult` — the primary `GET`: transport exception or a response;
* `aiStructured` — `_structure_data_with_ai`'s `try` block
  (`agent.run`, code-fence stripping, `json.loads`): `.ok` the parsed
  structured value, `.error` any exception caught by its fallback. -/
structure FetchEnv where
  authResult : Except String (List (String × String))
  healthResult : Except String Nat
  fetchResult : Except String HttpResponse
  aiStructured : Except String Json
deriving Repr

/-- `DataFetcherAgent._create_error_snapshot`.  `fetchedAt` and
`duration` stand for the `datetime.utcnow()` readings. -/
def createErrorSnapshot (service : DependentService) (fetchedAt duration : Int)
    (errorMessage : String) : DataSnapshot :=
  { service_id := service.service_id
    fetched_at := fetchedAt
    data := .obj []
    record_count := 0
    fetch_duration_ms := duration
    success := false
    error_message := some errorMessage }

/-- `DataFetcherAgent._structure_data_with_ai`: the parsed inference
output when the `try` succeeds, else the deterministic raw-passthrough
fallback (a dict tagged with the processing error; `records` wraps a
dict input in a singleton list and passes any other value through). -/
def structureDataWithAI (rawData : Json) (ai : Except String Json) : Json :=
  match ai with
  | .ok structured => structured
  | .error e =>
      .obj [("records", match rawData with
                        | .obj kvs => .arr [.obj kvs]
                        | other => other),
            ("metadata", .obj [("processing_error", .str e)]),
            ("raw_data", rawData)]

/-- `DataFetcherAgent._count_records`, including Python's dynamic
behaviour of `"records" in data` / `data["records"]`: `none` means the
expression raises `TypeError` (membership test on a non-container, or
indexing a list/str with a string), which the caller's `except` turns
into an error snapshot. -/
def countRecords : Json → Option Nat
  | .obj kvs =>
      match alistLookup "records" kvs with
      | some (.arr records) => some records.length
      | some _ => some (if kvs.length > 0 then 1 else 0)
      | none => some (if kvs.length > 0 then 1 else 0)
  | .arr xs =>
      if xs.any (fun j => match j with | .str s => s = "records" | _ => false) then
        none
      else
        some xs.length
  | .str s => if strContains s "records" then none else some 0
  | _ => none

/-- The tail of `DataFetcherAgent._fetch_from_service` after the
health check: the primary `GET` (`raise_for_status` errors on 4xx/5xx),
body parsing (JSON when the `content-type` says so, else the raw-text
wrapper), inference-assisted structuring, and record counting.  Split
out of `fetchFromService` so the two control-flow paths that reach it
share one definition. -/
def fetchMainRequest (service : DependentService) (env : FetchEnv)
    (endT duration : Int) : DataSnapshot :=
  match env.fetchResult with
  | .error e =>
      createErrorSnapshot service endT duration ("HTTP error: " ++ e)
  | .ok resp =>
    if resp.status ≥ 400 then
      createErrorSnapshot service endT duration
        ("HTTP error: status " ++ toString resp.status)
    else
      let parsed : Except String Json :=
        if strContains resp.contentType "application/json" then
          match resp.jsonBody with
          | some j => .ok j
          | none => .error "Unexpected error: response body is not valid JSON"
        else .ok (.obj [("raw_response", .str resp.textBody)])
      match parsed with
      | .error e => createErrorSnapshot service endT duration e
      | .ok data =>
        let structured := structureDataWithAI data env.aiStructured
        match countRecords structured with
        | none =>
            createErrorSnapshot service endT duration
              ("Unexpected error: argument of type is not iterable")
        | some n =>
            { service_id := service.service_id
              fetched_at := endT
              data := structured
              record_count := n
              fetch_duration_ms := duration
              success := true
              error_message := none }

/-- `DataFetcherAgent._fetch_from_service`.  `startT`/`endT` stand for
the `datetime.utcnow()` readings at entry and at snapshot construction
(the source takes several readings; one pair suffices for the verified
properties).  Every Python path ends in a `DataSnapshot`: the function
is total, mirroring the outermost `try`/`except` pair that converts
any exception into `_create_error_snapshot`. -/
def fetchFromService (service : DependentService) (env : FetchEnv)
    (startT endT : Int) : DataSnapshot :=
  let duration := endT - startT
  match env.authResult with
  | .error e => createErrorSnapshot service endT duration ("Unexpected error: " ++ e)
  | .ok _headers =>
    if pyTruthyStrOpt service.health_check_path then
      match env.healthResult with
      | .error e =>
          createErrorSnapshot service endT duration ("Health check failed: " ++ e)
      | .ok status =>
          if status ≥ 400 then
            createErrorSnapshot service endT duration
              ("Health check failed with status " ++ toString status)
          else fetchMainRequest service env endT duration
    else fetchMainRequest service env endT duration

/-! ## OAuth2 credential resolution (`src/src/auth/handler.py`) -/

/-- `AuthConfig` from `src/src/models.py` (the fields
`AuthHandler._handle_oauth2` reads).  `credentials` is the string
dictionary; `token_endpoint` is an `Optional[HttpUrl]`, truthy exactly
when present. -/
structure AuthConfig where
  credentials : List (String × String)
  token_endpoint : Option String := none
  headers : Option (List (String × String)) := none
deriving Repr

/-- The token endpoint's reply as `_handle_oauth2` inspects it: the
HTTP status and `token_data.get("access_token")` from the JSON body. -/
structure TokenResponse where
  status : Nat
  accessToken : Option String
deriving Repr

/-- Python truthiness of `credentials.get(k)` (`None` and `""` falsy). -/
def credTruthy (cfg : AuthConfig) (k : String) : Bool :=
  pyTruthyStrOpt (alistLookup k cfg.credentials)

/-- `AuthHandler._handle_oauth2`.  The token-exchange `POST` is the
oracle `net` (`.error` = transport exception).  The result is `.error`
when the source raises (an `AuthenticationError` or the propagated
transport exception), and otherwise the returned header dict paired
with a flag recording whether the network call to the token endpoint
was issued. -/
def handleOauth2 (cfg : AuthConfig) (net : Except String TokenResponse) :
    Except String (List (String × String) × Bool) :=
  if !(credTruthy cfg "client_id" && credTruthy cfg "client_secret"
        && cfg.token_endpoint.isSome) then
    .error "OAuth2 requires client_id, client_secret, and token_endpoint"
  else if credTruthy cfg "access_token" then
    .ok ([("Authorization",
           "Bearer " ++ (alistLookup "access_token" cfg.credentials).getD "")], false)
  else
    match net with
    | .error e => .error e
    | .ok resp =>
        if resp.status ≠ 200 then
          .error ("OAuth2 token request failed: status " ++ toString resp.status)
        else if !pyTruthyStrOpt resp.accessToken then
          .error "No access token in OAuth2 response"
        else
          .ok ([("Authorization", "Bearer " ++ resp.accessToken.getD "")], true)

/-! ## Orchestration (`src/src/orchestrator.py`) -/

/-- `ValidationStatus` from `src/src/models.py`. -/
inductive ValidationStatus where
  | pending | in_progress | completed | failed | cancelled
deriving DecidableEq, Repr

/-- `ValidationResult` from `src/src/models.py` (the free-form `details`
dict, which no verified property reads, is not modelled). -/
structure ValidationResult where
  validation_id : Nat
  config_id : Nat
  status : ValidationStatus := .pending
  started_at : Int
  completed_at : Option Int := none
  duration_seconds : Option Int := none
  data_snapshots : List DataSnapshot := []
  rules_checked : Nat := 0
  rules_passed : Nat := 0
  rules_failed : Nat := 0
  anomalies_detected : Nat := 0
  error_message : Option String := none
deriving Repr

/-- `ServiceConfig` from `src/src/models.py` (the fields
`run_validation` reads). -/
structure ServiceConfig where
  config_id : Nat
  config_name : String
  validation_rules : List ValidationRule
deriving Repr

/-- Python truthiness of a `Json` value (used by the generator
expressions `if r.passed` / `if not r.passed`). -/
def pyTruthyJson : Json → Bool
  | .null => false
  | .bool b => b
  | .num n => n ≠ 0
  | .str s => s ≠ ""
  | .arr xs => !xs.isEmpty
  | .obj kvs => !kvs.isEmpty

/-- The observable outcome of `workflow.run_stream` inside
`run_validation`: a (truthy) final output dict with the keys the
orchestrator reads, no output at all, or an exception escaping the
`try` block. -/
inductive WorkflowRun where
  | output (snapshots : List DataSnapshot)
      (verificationResults : List VerificationResult)
      (anomalyReport : Option AnomalyReport) (alertsSent : Bool)
  | noOutput
  | exception (msg : String)

/-- `ValidationOrchestrator.run_validation`.  `startT` is the
`datetime.utcnow()` reading at entry, `endT` the reading at result
construction (the source takes a fresh reading in each branch; a single
end-of-run value suffices for the verified properties). -/
def runValidation (config : ServiceConfig) (validationId : Nat)
    (run : WorkflowRun) (startT endT : Int) : ValidationResult :=
  match run with
  | .output snapshots verificationResults anomalyReport _alertsSent =>
      { validation_id := validationId
        config_id := config.config_id
        status := .completed
        started_at := startT
        completed_at := some endT
        duration_seconds := some (endT - startT)
        data_snapshots := snapshots
        rules_checked := config.validation_rules.length
        rules_passed := (verificationResults.filter (fun r => pyTruthyJson r.passed)).length
        rules_failed := (verificationResults.filter (fun r => !pyTruthyJson r.passed)).length
        anomalies_detected :=
          match anomalyReport with
          | some report => report.total_anomalies
          | none => 0
        error_message := none }
  | .noOutput =>
      { validation_id := validationId
        config_id := config.config_id
        status := .failed
        started_at := startT
        completed_at := some endT
        error_message := some "Workflow completed but no output received" }
  | .exception msg =>
      { validation_id := validationId
        config_id := config.config_id
        status := .failed
        started_at := startT
        completed_at := some endT
        error_message := some ("Validation error: " ++ msg) }

/-- The `_active_validations` registry of
`ValidationOrchestrationService`, keyed by validation id. -/
def Registry : Type := List (Nat × ValidationResult)

/-- In-place mutation of the run object registered under `vid`
(Python mutates the stored `ValidationResult`; dict keys are unique). -/
def updateRun (reg : Registry) (vid : Nat) (r : ValidationResult) : Registry :=
  (reg : List (Nat × ValidationResult)).map
    (fun p => if p.1 = vid then (p.1, r) else p)

/-- First-match registry lookup (`self._active_validations[vid]`). -/
def lookupRun (reg : Registry) (vid : Nat) : Option ValidationResult :=
  (reg : List (Nat × ValidationResult)).find? (fun p => p.1 = vid) |>.map (·.2)

/-- `ValidationOrchestrationService.cancel_validation`: the returned
boolean paired with the registry after the call (`now` stands for
`datetime.utcnow()`). -/
def cancelValidation (reg : Registry) (vid : Nat) (now : Int) : Bool × Registry :=
  match lookupRun reg vid with
  | some result =>
      if result.status = .in_progress then
        (true, updateRun reg vid
          { result with status := .cancelled, completed_at := some now })
      else
        (false, reg)
  | none => (false, reg)

/-! ## Concrete sample data used by witnesses and counterexamples -/

/-- A critical-severity anomaly (as the fallback path of
`_detect_anomalies_with_ai` would produce one, with severity raised). -/
def critAnomaly : Anomaly :=
  { validation_id := 7, rule_id := "r-crit", severity := .critical,
    service_id := "svc-a", anomaly_type := "verification_failure",
    description := "complete failure", affected_records := 3 }

/-- A medium-severity anomaly. -/
def medAnomaly : Anomaly :=
  { validation_id := 7, rule_id := "r-med", severity := .medium,
    service_id := "svc-b", anomaly_type := "data_quality",
    description := "moderate issue", affected_records := 1 }

/-- An `AlertConfig` that is disabled but keeps default thresholds. -/
def disabledAlertConfig : AlertConfig :=
  { enabled := false, anomaly_count_threshold := 3,
    critical_severity_threshold := 1, high_severity_threshold := 3,
    email_enabled := false, email_recipients := [],
    slack_enabled := false, slack_webhook := none,
    webhook_enabled := false, webhook_url := none }

/-! ## Helper lemmas -/

/-- The running total tracked by the severity-count loop. -/
def sumCounts (c : SeverityCounts) : Nat :=
  c.critical + c.high + c.medium + c.low

theorem sumCounts_bumpSeverity (c : SeverityCounts) (s : AnomalySeverity) :
    sumCounts (bumpSeverity c s) = sumCounts c + 1 := by
  cases s <;> simp [bumpSeverity, sumCounts] <;> omega

theorem sumCounts_foldl (l : List Anomaly) (c : SeverityCounts) :
    sumCounts (l.foldl (fun c a => bumpSeverity c a.severity) c)
      = sumCounts c + l.length := by
  induction l generalizing c with
  | nil => simp
  | cons a rest ih =>
      simp only [List.foldl_cons, List.length_cons, ih, sumCounts_bumpSeverity]
      omega

theorem sumCounts_severityCounts (l : List Anomaly) :
    sumCounts (severityCounts l) = l.length := by
  simpa [severityCounts, sumCounts] using sumCounts_foldl l ⟨0, 0, 0, 0⟩

/-! ## C4 — severity counters partition the anomaly list -/

/-- C4: in every report built by `_generate_report`, the four severity
counters sum exactly to `total_anomalies`, and `total_anomalies` is the
length of the report's anomaly list (each anomaly bumps exactly one
counter, by `sumCounts_bumpSeverity`). -/
theorem report_severity_partition (validationId : Nat) (anomalies : List Anomaly)
    (recAi : Except String (List String)) (now : Int) :
    (generateReport validationId anomalies recAi now).critical_count
      + (generateReport validationId anomalies recAi now).high_count
      + (generateReport validationId anomalies recAi now).medium_count
      + (generateReport validationId anomalies recAi now).low_count
      = (generateReport validationId anomalies recAi now).total_anomalies
    ∧ (generateReport validationId anomalies recAi now).total_anomalies
      = (generateReport validationId anomalies recAi now).anomalies.length := by
  refine ⟨?_, by simp [generateReport]⟩
  have h := sumCounts_severityCounts anomalies
  simpa [generateReport, sumCounts] using h

/-! ## C5 — fixed alert-trigger policy -/

/-- C5: `alert_triggered` holds exactly when `critical_count > 0`, or
`high_count ≥ 3`, or `total_anomalies ≥ 5`.  `_generate_report` receives
no `AlertConfig` (the embedded function has no such parameter), so the
decision is independent of externally supplied thresholds; an empty
anomaly list yields `alert_triggered = false`. -/
theorem report_alert_trigger_policy (validationId : Nat) (anomalies : List Anomaly)
    (recAi : Except String (List String)) (now : Int) :
    ((generateReport validationId anomalies recAi now).alert_triggered = true ↔
      ((generateReport validationId anomalies recAi now).critical_count > 0
        ∨ (generateReport validationId anomalies recAi now).high_count ≥ 3
        ∨ (generateReport validationId anomalies recAi now).total_anomalies ≥ 5))
    ∧ (generateReport validationId [] recAi now).alert_triggered = false := by
  constructor
  · simp [generateReport, Bool.or_eq_true, decide_eq_true_eq, or_assoc]
  · simp [generateReport, severityCounts]

/-! ## C7 — the alert-sent timestamp -/

/-- C7 (counterexample): a report generated from one critical anomaly
triggers the alert and already carries `alert_sent_at`, even though
with a disabled `AlertConfig` the Alert Dispatcher never attempts
dispatch — so a report whose alerts are never dispatched still carries
an alert-sent timestamp, contradicting the claim. -/
theorem alert_sent_at_set_without_dispatch :
    (generateReport 7 [critAnomaly] (.error "timeout") 42).alert_triggered = true
    ∧ dispatchAttempted (some disabledAlertConfig)
        (generateReport 7 [critAnomaly] (.error "timeout") 42) = false
    ∧ (generateReport 7 [critAnomaly] (.error "timeout") 42).alert_sent_at = some 42 := by
  refine ⟨rfl, ?_, rfl⟩
  simp [dispatchAttempted, disabledAlertConfig]

/-- C7 (amended): `_generate_report` sets `alert_sent_at` to the report
generation time exactly when `alert_triggered` is set, regardless of
whether any dispatch is later attempted (the Alert Dispatcher never
writes this field). -/
theorem alert_sent_at_iff_triggered (validationId : Nat) (anomalies : List Anomaly)
    (recAi : Except String (List String)) (now : Int) :
    (generateReport validationId anomalies recAi now).alert_sent_at
      = (if (generateReport validationId anomalies recAi now).alert_triggered
         then some now else none) := by
  simp only [generateReport]

/-! ## C6 — per-channel alert dispatch results -/

/-- An `AlertConfig` with only the Slack channel enabled (and a
configured Slack webhook): the input on which `_send_alerts`'s
positional indexing of `task_results` goes wrong. -/
def slackOnlyConfig : AlertConfig :=
  { enabled := true, anomaly_count_threshold := 3,
    critical_severity_threshold := 1, high_severity_threshold := 3,
    email_enabled := false, email_recipients := [],
    slack_enabled := true, slack_webhook := some "https://hooks.example.com/T0/B0",
    webhook_enabled := false, webhook_url := none }

/-- C6 (code bug): with email disabled and Slack enabled with a
configured webhook, `_send_alerts` builds the single-element task list
`[slack_send]`, then assigns `results["email"] = None` (because
`task_results[0] if email_enabled else None` consults `email_enabled`,
not the task order) and never reaches the `len(task_results) > 1`
branch that would record the Slack result — the returned map is
`{"email": None}`: the enabled Slack channel's result is dropped and a
disabled channel appears instead. -/
theorem sendAlerts_drops_slack_result :
    sendAlerts slackOnlyConfig "email-sent" "slack-sent" "webhook-sent"
      = [("email", (none : Option String))]
    ∧ slackOnlyConfig.slack_enabled = true
    ∧ slackOnlyConfig.slack_webhook.isSome = true
    ∧ alistLookup "slack"
        (sendAlerts slackOnlyConfig "email-sent" "slack-sent" "webhook-sent") = none := by
  refine ⟨rfl, rfl, rfl, rfl⟩

/-! ## C2 — short-circuit on unavailable snapshots -/

/-- The phrase `data not available` occurs in every message of the form
`<pre>' data not available`. -/
theorem dna_substring (pre : String) :
    "data not available".toList <:+: (pre ++ "' data not available").toList := by
  refine ⟨pre.toList ++ "' ".toList, [], ?_⟩
  have h : (pre ++ "' data not available").data
      = pre.data ++ ("' ".data ++ "data not available".data) := by
    rw [String.data_append]; rfl
  simp [String.toList, h]

/-- C2 (amended): when the source snapshot is missing or failed — or,
when the rule's target service is set to a non-empty id, the target
snapshot is missing or failed — `_verify_rule` returns a failed outcome
whose message contains `data not available`, and no inference call is
made (the code treats an empty-string target id as unset, hence the
non-empty qualification). -/
theorem verifyRule_shortcircuits_unavailable (rule : ValidationRule)
    (snaps : List DataSnapshot) (ai : Except String Json) :
    (snapshotAvailable rule.source_service snaps = false →
      verifyRule rule snaps ai
        = (failedOutcome rule.rule_id
            ("Source service '" ++ rule.source_service ++ "' data not available"),
           false)
      ∧ "data not available".toList
          <:+: ("Source service '" ++ rule.source_service
                  ++ "' data not available").toList)
    ∧ (snapshotAvailable rule.source_service snaps = true →
       pyTruthyStrOpt rule.target_service = true →
       snapshotAvailable (rule.target_service.getD "") snaps = false →
      verifyRule rule snaps ai
        = (failedOutcome rule.rule_id
            ("Target service '" ++ rule.target_service.getD ""
              ++ "' data not available"),
           false)
      ∧ "data not available".toList
          <:+: ("Target service '" ++ rule.target_service.getD ""
                  ++ "' data not available").toList) := by
  constructor
  · intro h
    exact ⟨by simp [verifyRule, h], dna_substring _⟩
  · intro hs ht htgt
    refine ⟨?_, dna_substring _⟩
    simp [verifyRule, hs, ht, htgt]

/-- A snapshot set and rule instantiating C2's theorem: the source
snapshot for `svcA` is missing from the empty snapshot list. -/
def missingSourceRule : ValidationRule :=
  { rule_id := "rw", rule_name := "witness rule", description := "d",
    source_service := "svcX" }

/-- C2 (witness): with no snapshots at all, the rule fails with the
`data not available` message and no inference call. -/
theorem verifyRule_shortcircuits_unavailable_witness :
    verifyRule missingSourceRule [] (.ok (.obj [("passed", .bool true)]))
      = (failedOutcome "rw" ("Source service '" ++ "svcX" ++ "' data not available"),
         false)
    ∧ "data not available".toList
        <:+: ("Source service '" ++ "svcX" ++ "' data not available").toList := by
  have h := (verifyRule_shortcircuits_unavailable missingSourceRule []
      (.ok (.obj [("passed", .bool true)]))).1 rfl
  exact h

/-- A rule whose target service id is set, but to the empty string. -/
def emptyTargetRule : ValidationRule :=
  { rule_id := "r0", rule_name := "empty target", description := "d",
    source_service := "svcA", target_service := some "" }

/-- A successful snapshot for service `svcA`. -/
def goodSnapA : DataSnapshot :=
  { service_id := "svcA", fetched_at := 0, data := .obj [("k", .num 1)],
    record_count := 1, fetch_duration_ms := 5, success := true }

/-- C2 (counterexample): a rule whose target service is set (to the
empty string) with no snapshot for that target nonetheless reaches the
inference call and can return `passed=true` — Python's `if
rule.target_service:` treats the empty string as no target, so the
claimed short-circuit does not happen for every set target. -/
theorem verifyRule_empty_target_not_shortcircuited :
    emptyTargetRule.target_service.isSome = true
    ∧ findSnapshot "" [goodSnapA] = none
    ∧ (verifyRule emptyTargetRule [goodSnapA] (.ok (.obj [("passed", .bool true)]))).2
        = true
    ∧ (verifyRule emptyTargetRule [goodSnapA]
        (.ok (.obj [("passed", .bool true)]))).1.passed = .bool true := by
  refine ⟨rfl, rfl, rfl, rfl⟩

/-! ## C3 — inference failures never pass verification -/

/-- When `_verify_rule` reports that the inference capability was
invoked, the outcome is exactly the delegated-verification outcome. -/
theorem verifyRule_called_eq (rule : ValidationRule) (snaps : List DataSnapshot)
    (ai : Except String Json) (h : (verifyRule rule snaps ai).2 = true) :
    (verifyRule rule snaps ai).1 = aiVerifyOutcome rule.rule_id ai := by
  unfold verifyRule at h ⊢
  by_cases h1 : snapshotAvailable rule.source_service snaps = false
  · simp [h1] at h
  · by_cases h2 : pyTruthyStrOpt rule.target_service = true
    · by_cases h3 : snapshotAvailable (rule.target_service.getD "") snaps = false
      · simp [h1, h2, h3] at h
      · simp [h1, h2, h3]
    · simp [h1, h2]

/-- C3 (amended): on the inference-delegation path, an inference
exception or unparseable response yields `passed=false` with the
message `AI verification failed: …` naming the failure; a parsed
non-dict response likewise fails with an `AI verification failed`
message; a parsed response missing the `passed` field yields
`passed=false` (its message is the response's own `message` field, or
the default `Verification completed`, so it need not name the failure);
and no such failure ever yields `passed=true` — a true verdict requires
a parsed response whose `passed` field is literally `true`. -/
theorem verifyRule_inference_failure (rule : ValidationRule)
    (snaps : List DataSnapshot) (ai : Except String Json)
    (hcall : (verifyRule rule snaps ai).2 = true) :
    (∀ e, ai = .error e →
      (verifyRule rule snaps ai).1
        = { rule_id := rule.rule_id, passed := .bool false,
            message := .str ("AI verification failed: " ++ e), details := .obj [] })
    ∧ (∀ j, ai = .ok j → (∀ kvs, j ≠ .obj kvs) →
      (verifyRule rule snaps ai).1.passed = .bool false
      ∧ (verifyRule rule snaps ai).1.message
          = .str ("AI verification failed: '" ++ pyTypeName j
              ++ "' object has no attribute " ++ "'get'"))
    ∧ (∀ kvs, ai = .ok (.obj kvs) → alistLookup "passed" kvs = none →
      (verifyRule rule snaps ai).1.passed = .bool false
      ∧ (verifyRule rule snaps ai).1.message
          = (alistLookup "message" kvs).getD (.str "Verification completed"))
    ∧ ((verifyRule rule snaps ai).1.passed = .bool true →
      ∃ kvs, ai = .ok (.obj kvs)
        ∧ alistLookup "passed" kvs = some (.bool true)) := by
  rw [verifyRule_called_eq rule snaps ai hcall]
  refine ⟨?_, ?_, ?_, ?_⟩
  · rintro e rfl
    rfl
  · rintro j rfl hne
    cases j with
    | obj kvs => exact absurd rfl (hne kvs)
    | null => exact ⟨rfl, rfl⟩
    | bool b => exact ⟨rfl, rfl⟩
    | num n => exact ⟨rfl, rfl⟩
    | str s => exact ⟨rfl, rfl⟩
    | arr xs => exact ⟨rfl, rfl⟩
  · rintro kvs rfl hnone
    simp [aiVerifyOutcome, hnone]
  · intro hpassed
    cases ai with
    | error e => simp [aiVerifyOutcome] at hpassed
    | ok j =>
        cases j with
        | obj kvs =>
            refine ⟨kvs, rfl, ?_⟩
            cases hlk : alistLookup "passed" kvs with
            | none => simp [aiVerifyOutcome, hlk] at hpassed
            | some v =>
                simp only [aiVerifyOutcome, hlk, Option.getD_some] at hpassed
                exact congrArg some hpassed
        | null => simp [aiVerifyOutcome] at hpassed
        | bool b => simp [aiVerifyOutcome] at hpassed
        | num n => simp [aiVerifyOutcome] at hpassed
        | str s => simp [aiVerifyOutcome] at hpassed
        | arr xs => simp [aiVerifyOutcome] at hpassed

/-- The single-service rule used to exercise the delegation path. -/
def singleRuleA : ValidationRule :=
  { rule_id := "r1", rule_name := "single", description := "d",
    source_service := "svcA" }

/-- C3 (witness): an inference exception on the delegation path yields
`passed=false` with a message naming the failure. -/
theorem verifyRule_inference_failure_witness :
    (verifyRule singleRuleA [goodSnapA] (.error "boom")).1
      = { rule_id := "r1", passed := .bool false,
          message := .str ("AI verification failed: " ++ "boom"),
          details := .obj [] } := by
  exact (verifyRule_inference_failure singleRuleA [goodSnapA] (.error "boom") rfl).1
    "boom" rfl

/-- C3 (counterexample): a parsed inference response that is missing the
`passed` field (the empty JSON object) yields `passed=false`, but its
message is the default `Verification completed`, which does not name any
failure — refuting the claim that every such failure carries a message
naming the failure. -/
theorem verifyRule_missing_passed_message_silent :
    (verifyRule singleRuleA [goodSnapA] (.ok (.obj []))).2 = true
    ∧ alistLookup "passed" ([] : List (String × Json)) = none
    ∧ (verifyRule singleRuleA [goodSnapA] (.ok (.obj []))).1.passed = .bool false
    ∧ (verifyRule singleRuleA [goodSnapA] (.ok (.obj []))).1.message
        = .str "Verification completed"
    ∧ ¬("fail".toList <:+: "Verification completed".toList) := by
  exact ⟨rfl, rfl, rfl, rfl, by decide⟩

/-! ## C1 — the Service Client never fails outward -/

theorem msg_len_pos (a b : String) (h : 0 < a.length) : 0 < (a ++ b).length := by
  rw [String.length_append]; omega

/-- Every result of the main-request tail is either a success snapshot
or an error snapshot with a non-empty message. -/
theorem fetchMainRequest_shape (service : DependentService) (env : FetchEnv)
    (endT duration : Int) :
    (fetchMainRequest service env endT duration).success = true
    ∨ ∃ m, fetchMainRequest service env endT duration
        = createErrorSnapshot service endT duration m ∧ 0 < m.length := by
  rcases hfr : env.fetchResult with e | resp
  · refine .inr ⟨"HTTP error: " ++ e, ?_, msg_len_pos _ _ (by decide)⟩
    simp [fetchMainRequest, hfr]
  · by_cases hst : resp.status ≥ 400
    · refine .inr ⟨"HTTP error: status " ++ toString resp.status, ?_,
        msg_len_pos _ _ (by decide)⟩
      simp [fetchMainRequest, hfr, hst]
    · by_cases hct : strContains resp.contentType "application/json" = true
      · rcases hjb : resp.jsonBody with _ | j
        · refine .inr ⟨"Unexpected error: response body is not valid JSON", ?_,
            by decide⟩
          simp [fetchMainRequest, hfr, hst, hct, hjb]
        · rcases hcr : countRecords (structureDataWithAI j env.aiStructured)
            with _ | n
          · refine .inr ⟨"Unexpected error: argument of type is not iterable", ?_,
              by decide⟩
            simp [fetchMainRequest, hfr, hst, hct, hjb, hcr]
          · left
            simp [fetchMainRequest, hfr, hst, hct, hjb, hcr]
      · simp only [Bool.not_eq_true] at hct
        rcases hcr : countRecords (structureDataWithAI
            (.obj [("raw_response", .str resp.textBody)]) env.aiStructured)
          with _ | n
        · refine .inr ⟨"Unexpected error: argument of type is not iterable", ?_,
            by decide⟩
          simp [fetchMainRequest, hfr, hst, hct, hcr]
        · left
          simp [fetchMainRequest, hfr, hst, hct, hcr]

/-- Every result of `_fetch_from_service` is either a success snapshot
or an error snapshot with a non-empty message. -/
theorem fetchFromService_shape (service : DependentService) (env : FetchEnv)
    (startT endT : Int) :
    (fetchFromService service env startT endT).success = true
    ∨ ∃ m, fetchFromService service env startT endT
        = createErrorSnapshot service endT (endT - startT) m ∧ 0 < m.length := by
  rcases hau : env.authResult with e | headers
  · refine .inr ⟨"Unexpected error: " ++ e, ?_, msg_len_pos _ _ (by decide)⟩
    simp [fetchFromService, hau]
  · by_cases hhp : pyTruthyStrOpt service.health_check_path = true
    · rcases hhr : env.healthResult with e | status
      · refine .inr ⟨"Health check failed: " ++ e, ?_, msg_len_pos _ _ (by decide)⟩
        simp [fetchFromService, hau, hhp, hhr]
      · by_cases hst : status ≥ 400
        · refine .inr ⟨"Health check failed with status " ++ toString status, ?_,
            msg_len_pos _ _ (by decide)⟩
          simp [fetchFromService, hau, hhp, hhr, hst]
        · have hrest := fetchMainRequest_shape service env endT (endT - startT)
          have heq : fetchFromService service env startT endT
              = fetchMainRequest service env endT (endT - startT) := by
            simp [fetchFromService, hau, hhp, hhr, hst]
          rw [heq]
          exact hrest
    · simp only [Bool.not_eq_true] at hhp
      have hrest := fetchMainRequest_shape service env endT (endT - startT)
      have heq : fetchFromService service env startT endT
          = fetchMainRequest service env endT (endT - startT) := by
        simp [fetchFromService, hau, hhp]
      rw [heq]
      exact hrest

/-- C1: `_fetch_from_service` always produces exactly one
`DataSnapshot` — the embedded function is total, every exception a
call site can raise being routed to `_create_error_snapshot` — and
whenever the snapshot is failed it carries `success=false`, an empty
payload, `record_count = 0`, and a non-empty error message. -/
theorem fetchFromService_failure_snapshot (service : DependentService)
    (env : FetchEnv) (startT endT : Int)
    (h : (fetchFromService service env startT endT).success = false) :
    (fetchFromService service env startT endT).data = .obj []
    ∧ (fetchFromService service env startT endT).record_count = 0
    ∧ ∃ m, (fetchFromService service env startT endT).error_message = some m
        ∧ 0 < m.length := by
  rcases fetchFromService_shape service env startT endT with hs | ⟨m, hm, hpos⟩
  · rw [hs] at h; cases h
  · rw [hm]; exact ⟨rfl, rfl, m, rfl, hpos⟩

/-- The service used by C1's witness. -/
def svcW : DependentService :=
  { service_id := "svc-w", service_name := "Witness", service_type := "REST_API",
    endpoint := "https://api.example.com/data" }

/-- An environment in which authentication raises. -/
def envAuthFail : FetchEnv :=
  { authResult := .error "Authentication failed: API key not provided in credentials"
    healthResult := .ok 200
    fetchResult := .ok { status := 200, contentType := "application/json",
                         textBody := "{}", jsonBody := some (.obj []) }
    aiStructured := .error "timeout" }

/-- C1 (witness): an authentication failure produces a failed snapshot
with empty payload, zero records, and a populated error message. -/
theorem fetchFromService_failure_snapshot_witness :
    (fetchFromService svcW envAuthFail 0 3).data = .obj []
    ∧ (fetchFromService svcW envAuthFail 0 3).record_count = 0
    ∧ ∃ m, (fetchFromService svcW envAuthFail 0 3).error_message = some m
        ∧ 0 < m.length := by
  exact fetchFromService_failure_snapshot svcW envAuthFail 0 3 rfl

/-! ## C8 — OAuth2 with a pre-supplied access token -/

/-- C8 (amended): when `client_id`, `client_secret` and
`token_endpoint` are present (the source checks these before anything
else) and a non-empty pre-supplied `access_token` is present,
`_handle_oauth2` returns `Authorization: Bearer <token>` and issues no
network call to the token endpoint, for every possible token-endpoint
behaviour `net`. -/
theorem handleOauth2_presupplied_token (cfg : AuthConfig)
    (net : Except String TokenResponse) (tok : String)
    (h1 : credTruthy cfg "client_id" = true)
    (h2 : credTruthy cfg "client_secret" = true)
    (h3 : cfg.token_endpoint.isSome = true)
    (h4 : alistLookup "access_token" cfg.credentials = some tok)
    (h5 : tok ≠ "") :
    handleOauth2 cfg net = .ok ([("Authorization", "Bearer " ++ tok)], false) := by
  have htr : credTruthy cfg "access_token" = true := by
    simp [credTruthy, h4, pyTruthyStrOpt, h5]
  simp [handleOauth2, h1, h2, h3, htr, h4]

/-- An OAuth2 config with complete client-credential fields and a
pre-supplied token. -/
def oauthCfgW : AuthConfig :=
  { credentials := [("client_id", "cid"), ("client_secret", "sec"),
                    ("access_token", "tok-123")],
    token_endpoint := some "https://login.example.com/token" }

/-- C8 (witness): the pre-supplied token is used even when the token
endpoint is unreachable, showing no network call happens. -/
theorem handleOauth2_presupplied_token_witness :
    handleOauth2 oauthCfgW (.error "network unreachable")
      = .ok ([("Authorization", "Bearer " ++ "tok-123")], false) := by
  exact handleOauth2_presupplied_token oauthCfgW (.error "network unreachable")
    "tok-123" rfl rfl rfl rfl (by decide)

/-- An OAuth2 config carrying only a pre-supplied access token —
no `client_id`, `client_secret` or `token_endpoint`. -/
def oauthCfgTokenOnly : AuthConfig :=
  { credentials := [("access_token", "tok-123")], token_endpoint := none }

/-- C8 (counterexample): a descriptor with a pre-supplied access token
but missing client-credential fields raises `AuthenticationError`
instead of returning the Bearer header: the `all([client_id,
client_secret, token_endpoint])` check precedes the token shortcut, so
the claim does not hold for every descriptor with a token present. -/
theorem handleOauth2_token_not_sufficient :
    credTruthy oauthCfgTokenOnly "access_token" = true
    ∧ handleOauth2 oauthCfgTokenOnly (.error "no network")
        = .error "OAuth2 requires client_id, client_secret, and token_endpoint" := by
  exact ⟨rfl, rfl⟩

/-! ## C9 — terminal run results and duration -/

/-- C9 (amended): every result of `run_validation` is terminal
(`completed` or `failed`); a `completed` result carries
`duration_seconds = completed_at - started_at`; a `failed` result (no
workflow output, or an exception) carries no duration at all —
`duration_seconds` stays at its `None` default on the failure paths. -/
theorem runValidation_terminal_duration (config : ServiceConfig)
    (validationId : Nat) (run : WorkflowRun) (startT endT : Int) :
    ((runValidation config validationId run startT endT).status = .completed
      ∨ (runValidation config validationId run startT endT).status = .failed)
    ∧ ((runValidation config validationId run startT endT).status = .completed →
        (runValidation config validationId run startT endT).duration_seconds
          = some (endT - startT)
        ∧ (runValidation config validationId run startT endT).completed_at = some endT
        ∧ (runValidation config validationId run startT endT).started_at = startT)
    ∧ ((runValidation config validationId run startT endT).status = .failed →
        (runValidation config validationId run startT endT).duration_seconds = none) := by
  cases run <;> simp [runValidation]

/-- The configuration used by orchestration witnesses. -/
def configW : ServiceConfig :=
  { config_id := 3, config_name := "cfg", validation_rules := [] }

/-- C9 (witness): a completed run's duration is its end minus start. -/
theorem runValidation_terminal_duration_witness :
    (runValidation configW 9 (.output [] [] none false) 10 25).duration_seconds
      = some 15 := by
  have h := runValidation_terminal_duration configW 9 (.output [] [] none false) 10 25
  exact ((h.2.1 rfl).1).trans (by norm_num)

/-- C9 (counterexample): the no-output failure path produces a terminal
(`failed`) result with a completion timestamp but no duration, refuting
the claim that every terminal result carries end-minus-start. -/
theorem runValidation_failed_has_no_duration :
    (runValidation configW 9 .noOutput 10 25).status = .failed
    ∧ (runValidation configW 9 .noOutput 10 25).completed_at = some 25
    ∧ (runValidation configW 9 .noOutput 10 25).duration_seconds = none := by
  exact ⟨rfl, rfl, rfl⟩

/-! ## C10 — cancellation is atomic at the service interface -/

/-- C10: `cancel_validation` returns `true` — and rewrites the
registered run to `cancelled` with a completion timestamp — exactly
when the id is registered with status `in_progress`; in every other
case it returns `false` and the registry is untouched, so a terminal
state is never re-entered. -/
theorem cancelValidation_spec (reg : Registry) (vid : Nat) (now : Int) :
    ((cancelValidation reg vid now).1 = true ↔
      ∃ r, lookupRun reg vid = some r ∧ r.status = .in_progress)
    ∧ (∀ r, lookupRun reg vid = some r → r.status = .in_progress →
        (cancelValidation reg vid now).2
          = updateRun reg vid { r with status := .cancelled, completed_at := some now })
    ∧ ((cancelValidation reg vid now).1 = false →
        (cancelValidation reg vid now).2 = reg) := by
  rcases hlk : lookupRun reg vid with _ | r
  · simp [cancelValidation, hlk]
  · by_cases hst : r.status = .in_progress
    · refine ⟨?_, ?_, ?_⟩
      · simp [cancelValidation, hlk, hst]
      · rintro r' hr' _
        cases Option.some.inj hr'
        simp [cancelValidation, hlk, hst]
      · intro hfalse
        exfalso
        simp [cancelValidation, hlk, hst] at hfalse
    · refine ⟨?_, ?_, ?_⟩
      · simp [cancelValidation, hlk, hst]
      · rintro r' hr' hst'
        cases Option.some.inj hr'
        exact absurd hst' hst
      · intro _
        simp [cancelValidation, hlk, hst]

/-- An in-progress run registered under id 1. -/
def runInProg : ValidationResult :=
  { validation_id := 1, config_id := 3, status := .in_progress, started_at := 10 }

/-- The sample registry for C10's witness. -/
def regW : Registry := [(1, runInProg)]

/-- C10 (witness): cancelling a registered in-progress run returns
`true` and rewrites it to `cancelled` with the completion timestamp. -/
theorem cancelValidation_spec_witness :
    (cancelValidation regW 1 50).1 = true
    ∧ (cancelValidation regW 1 50).2
        = updateRun regW 1
            { runInProg with status := .cancelled, completed_at := some 50 } := by
  have h := cancelValidation_spec regW 1 50
  exact ⟨h.1.mpr ⟨runInProg, rfl, rfl⟩, h.2.1 runInProg rfl rfl⟩

end CloudValidator
